import Mathlib

/-!
Verification development for the users microservice
(UsersService in apps/users, UserResolver, gateway wiring).

The orchestrating code (register, createActivationToken, activateUser,
Login, comparePassword, getLoggedInUser, Logout, and the GraphQL
resolver guards) is embedded directly from the TypeScript source.
The two external cryptographic collaborators — the JWT codec
(@nestjs/jwt) and bcrypt — are not part of the repository; they are
modelled from the specification (sections 4.1 and 4.2): an ideal
collision-free hash and a tamper-evident signed-token codec whose
validation is a pure function of (token, secret, current time).
Randomness (the activation-code draw, bcrypt salts) and the clock are
passed as explicit numeric arguments, as is usual in a shallow
embedding of effectful code.
-/

set_option maxRecDepth 100000

/-- Modelled from the spec: the Password Hasher (section 4.2) is bcrypt,
an external library.  A digest records the work factor, the random salt
of the call, and the image of the plaintext under an ideal (perfectly
collision-free) one-way function; the ideal function is modelled by
keeping the plaintext itself as the image, which captures exactly the
functional contract `verify (p, hash p) = true` and
`verify (w, hash p) = false` for `w ≠ p`. -/
structure BcryptDigest where
  cost : Nat
  salt : Nat
  image : String
deriving DecidableEq, Repr

/-- Modelled from the spec: `bcrypt.hash(password, cost)` with the salt
drawn by the library made an explicit argument. -/
def bcryptHash (password : String) (cost : Nat) (salt : Nat) : BcryptDigest :=
  ⟨cost, salt, password⟩

/-- Modelled from the spec: `bcrypt.compare(password, digest)` re-runs
the one-way function with the digest's own salt and cost and compares. -/
def bcryptCompare (password : String) (digest : BcryptDigest) : Bool :=
  bcryptHash password digest.cost digest.salt == digest

/-- Failure modes of the signed-token codec (section 4.1): a bad
signature or malformed token is `TokenInvalid`, an elapsed TTL is
`TokenExpired`; callers can branch on which. -/
inductive CodecError where
  | TokenInvalid
  | TokenExpired
deriving DecidableEq, Repr

/-- Modelled from the spec: a signed token (section 4.1) bundles a
payload with its issued-at and expiry instants and a MAC over all of
them.  Times are seconds since an arbitrary epoch. -/
structure SignedToken (α : Type) where
  payload : α
  issuedAt : Nat
  expiresAt : Nat
  signature : Nat
deriving DecidableEq, Repr

/-- Modelled from the spec: a simple deterministic string hash standing
in for the HMAC primitive; the theorems below only use that the
verifier recomputes it from the token's own fields, so any concrete
function serves. -/
def strHash (s : String) : Nat :=
  s.data.foldl (fun h c => h * 131 + c.toNat + 1) 7

/-- Modelled from the spec: the MAC over (payload, issuedAt, expiresAt)
keyed by the secret; the payload enters through an explicit encoding
function. -/
def macOf {α : Type} (enc : α → String) (secret : Nat) (p : α)
    (iat ex : Nat) : Nat :=
  strHash (enc p ++ "|" ++ toString iat ++ "|" ++ toString ex
    ++ "|" ++ toString secret)

/-- Modelled from the spec: `jwtService.sign(payload, {secret,
expiresIn})` — embeds issued-at and computed expiry inside the signed
payload, so validation is a pure function of (token, secret, time). -/
def jwtSign {α : Type} (enc : α → String) (secret : Nat) (p : α)
    (now ttl : Nat) : SignedToken α :=
  ⟨p, now, now + ttl, macOf enc secret p now (now + ttl)⟩

/-- Modelled from the spec: `jwtService.verify(token, {secret})` — the
signature is checked first (failure: `TokenInvalid`), then expiry
(`TokenExpired` once the expiry instant is reached), then the payload
is returned. -/
def jwtVerify {α : Type} (enc : α → String) (secret : Nat) (now : Nat)
    (t : SignedToken α) : Except CodecError α :=
  if t.signature ≠ macOf enc secret t.payload t.issuedAt t.expiresAt then
    .error .TokenInvalid
  else if t.expiresAt ≤ now then
    .error .TokenExpired
  else
    .ok t.payload

/-- UserData (source interface): the pending user placed inside the
activation token.  The password field holds the bcrypt digest (the
source stores the digest string there); `phone_number` is optional
because a JS `number` field may be `undefined` when the transport does
not validate it. -/
structure UserData where
  name : String
  email : String
  password : BcryptDigest
  phone_number : Option Nat
deriving DecidableEq, Repr

/-- Identity persisted by the user store (Prisma `user` row). -/
structure Identity where
  id : Nat
  name : String
  email : String
  password : BcryptDigest
  phone_number : Option Nat
deriving DecidableEq, Repr

/-- The user store as the list of persisted identities, in insertion
order; Prisma's autoincrement id is `length + 1` at creation. -/
def findByEmail (store : List Identity) (email : String) : Option Identity :=
  store.find? (fun u => u.email == email)

/-- Lookup by phone number (`prisma.user.findUnique({where:
{phone_number}})`). -/
def findByPhone (store : List Identity) (phone : Option Nat) : Option Identity :=
  store.find? (fun u => u.phone_number == phone)

/-- Payload the service signs: `{ user, activationCode }`. -/
structure ActivationPayload where
  user : UserData
  activationCode : String
deriving DecidableEq, Repr

/-- Encoding of a digest for MAC purposes. -/
def encDigest (d : BcryptDigest) : String :=
  toString d.cost ++ "$" ++ toString d.salt ++ "$" ++ d.image

/-- Encoding of an optional number for MAC purposes. -/
def encOptNat : Option Nat → String
  | none => "undefined"
  | some n => toString n

/-- Encoding of the pending user for MAC purposes. -/
def encUserData (u : UserData) : String :=
  u.name ++ "," ++ u.email ++ "," ++ encDigest u.password ++ ","
    ++ encOptNat u.phone_number

/-- Encoding of the activation payload for MAC purposes. -/
def encActivationPayload (p : ActivationPayload) : String :=
  encUserData p.user ++ ";" ++ p.activationCode

/-- Errors signalled (thrown) by the service: `BadRequestException`
with its message, or an error propagated from `jwtService.verify`. -/
inductive ServiceError where
  | badRequest (msg : String)
  | jwtError (e : CodecError)
deriving DecidableEq, Repr

/-- Mail dispatched through `emailService.sendMail`. -/
structure MailData where
  subject : String
  template : String
  activationCode : String
  email : String
  name : String
deriving DecidableEq, Repr

/-- Service-level registration input (`RegisterDto`), fields already
destructured by the resolver. -/
structure RegisterDto where
  name : String
  email : String
  password : String
  phone_number : Option Nat
deriving DecidableEq, Repr

/-- Successful result of `register`: the activation token and the fixed
message.  The express `response` object passed through by the source is
a transport handle with no data content and is not modelled. -/
structure RegisterOk where
  activation_token : SignedToken ActivationPayload
  message : String
deriving DecidableEq, Repr

/-- Activation code drawn by createActivationToken:
`Math.floor(1000 + Math.random() * 9000).toString()`, the random draw
made an explicit argument; the code lands in 1000–9999. -/
def activationCodeOf (rng : Nat) : String :=
  toString (1000 + rng % 9000)

/-- UsersService.createActivationToken: draws the 4-digit code and
signs `{user, activationCode}` with the JWT secret and a 5-minute
TTL. -/
def createActivationToken (secret now rng : Nat) (user : UserData) :
    SignedToken ActivationPayload × String :=
  let activationCode := activationCodeOf rng
  let token := jwtSign encActivationPayload secret
    ⟨user, activationCode⟩ now 300
  (token, activationCode)

/-- Pending user built by register: name, email, the bcrypt digest of
the password (cost 10), the phone number. -/
def pendingOf (dto : RegisterDto) (salt : Nat) : UserData :=
  ⟨dto.name, dto.email, bcryptHash dto.password 10 salt, dto.phone_number⟩

/-- UsersService.register: rejects if the email or the phone number is
already persisted, otherwise hashes the password (cost 10, salt an
explicit argument), builds the pending user, creates the activation
token, dispatches the activation mail and returns the token with the
fixed message.  The second component is the log of mails sent. -/
def register (store : List Identity) (secret salt now rng : Nat)
    (dto : RegisterDto) : Except ServiceError RegisterOk × List MailData :=
  match findByEmail store dto.email with
  | some _ => (.error (.badRequest "Email already exist"), [])
  | none =>
    match findByPhone store dto.phone_number with
    | some _ => (.error (.badRequest "Phone number already exist"), [])
    | none =>
      let user := pendingOf dto salt
      let activationToken := createActivationToken secret now rng user
      let activationCode := activationToken.2
      (.ok ⟨activationToken.1, "Otp sended to email !"⟩,
        [⟨"Activate your account !", "./activation-mail",
          activationCode, dto.email, dto.name⟩])

/-- ActivationDto: the code typed by the user and the token returned by
registration. -/
structure ActivationDto where
  activationCode : String
  activationToken : SignedToken ActivationPayload
deriving DecidableEq, Repr

/-- Outcome of a non-throwing run of activateUser.  The source has two
`return` statements: the created user, or — when the email already
exists — `return new BadRequestException(...)`, which hands the
exception back AS A VALUE instead of throwing it; `exceptionValue`
records that case. -/
inductive ActivateOk where
  | created (user : Identity)
  | exceptionValue (msg : String)
deriving DecidableEq, Repr

/-- UsersService.activateUser: verifies the token (propagating
`jwtService.verify` failures as thrown errors), throws
`BadRequestException` on a code mismatch, and then, if an identity with
the embedded email already exists, RETURNS the exception as a value;
otherwise persists the pending user.  Returns the outcome together
with the resulting store. -/
def activateUser (store : List Identity) (secret now : Nat)
    (dto : ActivationDto) :
    Except ServiceError (ActivateOk × List Identity) :=
  match jwtVerify encActivationPayload secret now dto.activationToken with
  | .error e => .error (.jwtError e)
  | .ok newUser =>
    if newUser.activationCode ≠ dto.activationCode then
      .error (.badRequest "Invalid activation code")
    else
      match findByEmail store newUser.user.email with
      | some _ => .ok (.exceptionValue "User already exist with this email", store)
      | none =>
        let u : Identity := ⟨store.length + 1, newUser.user.name,
          newUser.user.email, newUser.user.password, newUser.user.phone_number⟩
        .ok (.created u, store ++ [u])

/-- Store resulting from a call to activateUser: unchanged when the
call throws. -/
def activateUserStore (store : List Identity) (secret now : Nat)
    (dto : ActivationDto) : List Identity :=
  match activateUser store secret now dto with
  | .ok (_, s) => s
  | .error _ => store

/-- LoginDto. -/
structure LoginDto where
  email : String
  password : String
deriving DecidableEq, Repr

/-- Error object embedded in the login response (`error: { message }`). -/
structure ErrorShape where
  message : String
deriving DecidableEq, Repr

/-- Shape of the value Login returns in every case: user, access and
refresh tokens (null on failure) and an optional error object. -/
structure LoginResponseModel where
  user : Option Identity
  accessToken : Option (SignedToken Nat)
  refreshToken : Option (SignedToken Nat)
  error : Option ErrorShape
deriving DecidableEq, Repr

/-- Secrets and lifetimes for the token issuer. -/
structure TokenConfig where
  accessSecret : Nat
  refreshSecret : Nat
  accessTtl : Nat
  refreshTtl : Nat
deriving DecidableEq, Repr

/-- Encoding of the subject id for MAC purposes. -/
def encNat (n : Nat) : String := toString n

/-- Modelled from the spec: TokenSender.sendToken (utils/sendToken is
not among the provided sources) — the Token Issuer of section 4.4:
issues an access and a refresh token for the identity, independently
signed with distinct secrets and lifetimes, and returns them with the
user and no error. -/
def sendToken (cfg : TokenConfig) (now : Nat) (user : Identity) :
    LoginResponseModel :=
  ⟨some user,
    some (jwtSign encNat cfg.accessSecret user.id now cfg.accessTtl),
    some (jwtSign encNat cfg.refreshSecret user.id now cfg.refreshTtl),
    none⟩

/-- UsersService.comparePassword: delegates to bcrypt.compare. -/
def comparePassword (password : String) (hashPassword : BcryptDigest) : Bool :=
  bcryptCompare password hashPassword

/-- UsersService.Login: looks the user up by email; when found and the
password matches, delegates to the token sender; in every other case
returns the one uniform invalid-credentials value.  Never throws: the
result type is total. -/
def Login (store : List Identity) (cfg : TokenConfig) (now : Nat)
    (dto : LoginDto) : LoginResponseModel :=
  match findByEmail store dto.email with
  | some user =>
    if comparePassword dto.password user.password then
      sendToken cfg now user
    else
      ⟨none, none, none, some ⟨"Invalid email or password"⟩⟩
  | none => ⟨none, none, none, some ⟨"Invalid email or password"⟩⟩

/-- Request context as the guard leaves it.  A JS object carries
whatever properties are assigned to it; Logout assigns the lowercase
properties `accesstoken` and `refreshtoken`, which are distinct from
the camel-case `accessToken` and `refreshToken` the guard sets and
getLoggedInUser reads, so both spellings are fields of the model. -/
structure ReqCtx where
  user : Option Identity
  accessToken : Option String
  refreshToken : Option String
  accesstoken : Option String
  refreshtoken : Option String
deriving DecidableEq, Repr

/-- Value getLoggedInUser returns: `{ accessToken, refreshToken, user }`. -/
structure LoggedInView where
  accessToken : Option String
  refreshToken : Option String
  user : Option Identity
deriving DecidableEq, Repr

/-- UsersService.getLoggedInUser: reads `req.user`, `req.refreshToken`
and `req.accessToken` from the context. -/
def getLoggedInUser (req : ReqCtx) : LoggedInView :=
  ⟨req.accessToken, req.refreshToken, req.user⟩

/-- UsersService.Logout: assigns `req.user = null`,
`req.accesstoken = null`, `req.refreshtoken = null` (note the lowercase
spellings in the source) and returns the acknowledgement message.
Returns the mutated context together with the message. -/
def Logout (req : ReqCtx) : ReqCtx × String :=
  ({ req with user := none, accesstoken := none, refreshtoken := none },
    "Logged out successfully")

/-- Transport-level registration input before validation: any field of
the GraphQL argument object may be absent. -/
structure RegisterInput where
  name : Option String
  email : Option String
  password : Option String
  phone_number : Option Nat
deriving DecidableEq, Repr

/-- JS falsiness of an optional string: `undefined` and the empty
string are falsy. -/
def falsyStr : Option String → Bool
  | none => true
  | some s => s == ""

/-- UserResolver.register: throws `BadRequestException` with message
"Please fill the all fields" when `name`, `email` or `password` is
falsy (the phone number is not checked), otherwise calls the service.
The mail log is empty when the service is not reached. -/
def resolverRegister (store : List Identity) (secret salt now rng : Nat)
    (input : RegisterInput) :
    Except ServiceError RegisterOk × List MailData :=
  if falsyStr input.name || falsyStr input.email || falsyStr input.password then
    (.error (.badRequest "Please fill the all fields"), [])
  else
    match input.name, input.email, input.password with
    | some n, some e, some pw =>
      register store secret salt now rng ⟨n, e, pw, input.phone_number⟩
    | _, _, _ => (.error (.badRequest "Please fill the all fields"), [])

/-- UserResolver.activateUser: destructures `{ user }` from whatever
the service returned and wraps it as the mutation payload.  When the
service returned the `BadRequestException` value, the destructured
`user` property is undefined, so the resolver yields a success payload
with a null user. -/
def resolverActivateUser (store : List Identity) (secret now : Nat)
    (dto : ActivationDto) :
    Except ServiceError (Option Identity × List Identity) :=
  match activateUser store secret now dto with
  | .error e => .error e
  | .ok (.created u, s) => .ok (some u, s)
  | .ok (.exceptionValue _, s) => .ok (none, s)

/-- Identity persisted by a successful activation of the registration
`dto` against `store` (id is the autoincrement `length + 1`). -/
def createdIdentity (store : List Identity) (dto : RegisterDto)
    (salt : Nat) : Identity :=
  ⟨store.length + 1, dto.name, dto.email, bcryptHash dto.password 10 salt,
    dto.phone_number⟩

/-! Concrete scenario data used by the closed evaluations below. -/

/-- An identity already persisted in the store. -/
def annIdentity : Identity :=
  ⟨1, "Ann", "ann@x.com", bcryptHash "pw123456" 10 0, some 5551234⟩

/-- Store holding exactly `annIdentity`. -/
def annStore : List Identity := [annIdentity]

/-- Pending user whose email collides with `annIdentity`. -/
def c4Pending : UserData :=
  ⟨"Bob", "ann@x.com", bcryptHash "hunter2" 10 1, some 7770001⟩

/-- Valid activation request for `c4Pending` (secret 9, issued at 0,
random draw 0, so the embedded code is the supplied code). -/
def c4Dto : ActivationDto :=
  ⟨(createActivationToken 9 0 0 c4Pending).2,
    (createActivationToken 9 0 0 c4Pending).1⟩

/-- Pending user whose phone number collides with `annIdentity` while
the email is fresh. -/
def c5Pending : UserData :=
  ⟨"Bob", "bob@x.com", bcryptHash "hunter2" 10 1, some 5551234⟩

/-- Valid activation request for `c5Pending`. -/
def c5Dto : ActivationDto :=
  ⟨(createActivationToken 9 0 0 c5Pending).2,
    (createActivationToken 9 0 0 c5Pending).1⟩

/-- Identity that activating `c5Dto` against `annStore` persists. -/
def c5Created : Identity :=
  ⟨2, "Bob", "bob@x.com", bcryptHash "hunter2" 10 1, some 5551234⟩

/-- Request context after a successful guard pass: a logged-in user
with both tokens attached (the lowercase properties absent, as the
guard never sets them). -/
def c8Req : ReqCtx :=
  ⟨some annIdentity, some "acc.jwt", some "ref.jwt", none, none⟩

/-- Transport input with name, email and password present but the
phone number missing. -/
def c9Input : RegisterInput :=
  ⟨some "Ann", some "ann@x.com", some "pw123456", none⟩

/-- Service-level registration input for the round-trip scenario. -/
def annDto : RegisterDto := ⟨"Ann", "ann@x.com", "pw123456", some 5551234⟩

/-- Pending user used by the expiry witness. -/
def c2User : UserData :=
  ⟨"Ann", "ann@x.com", bcryptHash "pw123456" 10 0, some 5551234⟩

/-- Claim C7: hashing the same password under two different salts
yields two different digests; verifying a password against its own
hash succeeds; verifying any other password against that hash fails.
(The hasher is the ideal-hash model of bcrypt, section 4.2 of the
spec.) -/
theorem bcrypt_hash_verify_contract (p w : String) (cost s1 s2 s : Nat) :
    (s1 ≠ s2 → bcryptHash p cost s1 ≠ bcryptHash p cost s2) ∧
    bcryptCompare p (bcryptHash p cost s) = true ∧
    (w ≠ p → bcryptCompare w (bcryptHash p cost s) = false) := by
  refine ⟨fun h hEq => h (congrArg BcryptDigest.salt hEq), ?_, fun h => ?_⟩
  · simp [bcryptCompare, bcryptHash]
  · simp [bcryptCompare, bcryptHash, BcryptDigest.mk.injEq]
    exact h

/-- Witness for C7 at password "pw123456", wrong password "hunter2",
salts 0 and 1. -/
theorem bcrypt_hash_verify_contract_witness :
    bcryptHash "pw123456" 10 0 ≠ bcryptHash "pw123456" 10 1 ∧
    bcryptCompare "pw123456" (bcryptHash "pw123456" 10 0) = true ∧
    bcryptCompare "hunter2" (bcryptHash "pw123456" 10 0) = false := by
  obtain ⟨h1, h2, h3⟩ :=
    bcrypt_hash_verify_contract "pw123456" "hunter2" 10 0 1 0
  exact ⟨h1 (by decide), h2, h3 (by decide)⟩

/-- Claim C3: login with an email matching no stored identity and
login with a stored email but a non-matching password return the exact
same value, the uniform invalid-credentials shape, so the two causes
are indistinguishable to the caller. -/
theorem login_uniform_invalid_credentials
    (store1 store2 : List Identity) (cfg1 cfg2 : TokenConfig)
    (now1 now2 : Nat) (dto1 dto2 : LoginDto) (u : Identity)
    (h1 : findByEmail store1 dto1.email = none)
    (h2 : findByEmail store2 dto2.email = some u)
    (h3 : comparePassword dto2.password u.password = false) :
    Login store1 cfg1 now1 dto1 = Login store2 cfg2 now2 dto2 ∧
    Login store1 cfg1 now1 dto1 =
      ⟨none, none, none, some ⟨"Invalid email or password"⟩⟩ := by
  constructor <;> simp [Login, h1, h2, h3]

/-- Witness for C3: empty store with unknown email versus a store
holding Ann with the wrong password. -/
theorem login_uniform_invalid_credentials_witness :
    Login [] ⟨1, 2, 3, 4⟩ 0 ⟨"bob@x.com", "pw"⟩ =
      Login annStore ⟨5, 6, 7, 8⟩ 9 ⟨"ann@x.com", "wrong"⟩ := by
  exact (login_uniform_invalid_credentials [] annStore ⟨1, 2, 3, 4⟩
    ⟨5, 6, 7, 8⟩ 0 9 ⟨"bob@x.com", "pw"⟩ ⟨"ann@x.com", "wrong"⟩ annIdentity
    (by decide) (by decide) (by decide)).1

/-- Claim C10: whenever the credentials do not authenticate (email
absent, or present with a non-matching password), Login returns — it
never throws, its result type is total — the value whose user, access
token and refresh token are all null and whose error message is
"Invalid email or password". -/
theorem login_bad_credentials_uniform_value
    (store : List Identity) (cfg : TokenConfig) (now : Nat) (dto : LoginDto)
    (h : ∀ u, findByEmail store dto.email = some u →
      comparePassword dto.password u.password = false) :
    Login store cfg now dto =
      ⟨none, none, none, some ⟨"Invalid email or password"⟩⟩ := by
  unfold Login
  cases hfind : findByEmail store dto.email with
  | none => rfl
  | some u => simp [h u hfind]

/-- Witness for C10: Ann's email with a wrong password. -/
theorem login_bad_credentials_uniform_value_witness :
    Login annStore ⟨1, 2, 3, 4⟩ 0 ⟨"ann@x.com", "wrong"⟩ =
      ⟨none, none, none, some ⟨"Invalid email or password"⟩⟩ := by
  refine login_bad_credentials_uniform_value annStore ⟨1, 2, 3, 4⟩ 0
    ⟨"ann@x.com", "wrong"⟩ (fun u hu => ?_)
  have : u = annIdentity := by
    have h0 : findByEmail annStore "ann@x.com" = some annIdentity := by decide
    rw [h0] at hu
    exact (Option.some.injEq ..).mp hu.symm
  subst this
  decide

/-- Claim C8 (divergence evaluation): Logout clears the user but
assigns the lowercase properties accesstoken and refreshtoken, not the
camel-case accessToken and refreshToken that getLoggedInUser reads, so
after Logout the same context still returns both tokens; the claim
says all three come back null. -/
theorem logout_leaves_tokens_in_context :
    (Logout c8Req).2 = "Logged out successfully" ∧
    getLoggedInUser (Logout c8Req).1 =
      ⟨some "acc.jwt", some "ref.jwt", none⟩ := by
  exact ⟨rfl, rfl⟩

/-- Claim C4 (divergence evaluation): with a valid token, a matching
code and an already-taken email, activateUser returns the
BadRequestException as a value inside a successful result (nothing is
thrown), the store is unchanged, and the resolver hands its caller a
success payload whose user is null. -/
theorem activate_duplicate_email_not_raised :
    activateUser annStore 9 10 c4Dto =
      .ok (.exceptionValue "User already exist with this email", annStore) ∧
    resolverActivateUser annStore 9 10 c4Dto = .ok (none, annStore) := by
  exact ⟨rfl, rfl⟩

/-- Claim C6: register rejects a taken email with "Email already
exist" and a taken phone with "Phone number already exist", in both
cases dispatching no mail (empty effect log, no token in the result);
otherwise it returns exactly the activation token with the fixed
message — the activation code itself travels only in the dispatched
mail (and inside the token's signed payload), never as a field of the
returned value. -/
theorem register_duplicate_and_success_paths
    (store : List Identity) (secret salt now rng : Nat) (dto : RegisterDto) :
    (∀ u, findByEmail store dto.email = some u →
      register store secret salt now rng dto =
        (.error (.badRequest "Email already exist"), [])) ∧
    (findByEmail store dto.email = none →
      ∀ u, findByPhone store dto.phone_number = some u →
      register store secret salt now rng dto =
        (.error (.badRequest "Phone number already exist"), [])) ∧
    (findByEmail store dto.email = none →
      findByPhone store dto.phone_number = none →
      register store secret salt now rng dto =
        (.ok ⟨(createActivationToken secret now rng (pendingOf dto salt)).1,
            "Otp sended to email !"⟩,
          [⟨"Activate your account !", "./activation-mail",
            activationCodeOf rng, dto.email, dto.name⟩])) := by
  refine ⟨fun u h => ?_, fun h1 u h2 => ?_, fun h1 h2 => ?_⟩
  · simp [register, h]
  · simp [register, h1, h2]
  · simp [register, h1, h2, createActivationToken]

/-- Witness for C6: registering Bob with Ann's email is rejected. -/
theorem register_duplicate_and_success_paths_witness :
    register annStore 7 0 0 0 ⟨"Bob", "ann@x.com", "hunter2", some 9⟩ =
      (.error (.badRequest "Email already exist"), []) := by
  exact (register_duplicate_and_success_paths annStore 7 0 0 0
    ⟨"Bob", "ann@x.com", "hunter2", some 9⟩).1 annIdentity (by decide)

/-- Claim C9 (counterexample): with the phone number missing but name,
email and password present, the resolver does not reject with the
invalid-input error: the service runs, a token is created and the
activation mail is dispatched. -/
theorem register_missing_phone_not_rejected :
    resolverRegister [] 7 0 0 0 c9Input =
      (.ok ⟨(createActivationToken 7 0 0
          (pendingOf ⟨"Ann", "ann@x.com", "pw123456", none⟩ 0)).1,
          "Otp sended to email !"⟩,
        [⟨"Activate your account !", "./activation-mail", "1000",
          "ann@x.com", "Ann"⟩]) := by
  rfl

/-- Claim C9 (amended): the resolver rejects with the invalid-input
error whenever name, email or password is falsy (missing or empty),
and in that case the service is not invoked: no mail is sent and no
token is created.  A missing phone number is not checked. -/
theorem resolver_register_rejects_missing_fields
    (store : List Identity) (secret salt now rng : Nat)
    (input : RegisterInput)
    (h : falsyStr input.name = true ∨ falsyStr input.email = true ∨
      falsyStr input.password = true) :
    resolverRegister store secret salt now rng input =
      (.error (.badRequest "Please fill the all fields"), []) := by
  unfold resolverRegister
  rcases h with h | h | h <;> simp [h]

/-- Witness for the amended C9: missing name is rejected. -/
theorem resolver_register_rejects_missing_fields_witness :
    resolverRegister [] 7 0 0 0 ⟨none, some "ann@x.com", some "pw", some 5⟩ =
      (.error (.badRequest "Please fill the all fields"), []) :=
  resolver_register_rejects_missing_fields [] 7 0 0 0
    ⟨none, some "ann@x.com", some "pw", some 5⟩ (Or.inl rfl)

/-- Claim C2: for an issued activation token, redeeming once the TTL
instant is reached throws TokenExpired; redeeming in time with a
4-digit code different from the embedded one throws the code-mismatch
error; redeeming with an altered signature throws TokenInvalid; and
any throwing run of activateUser leaves the store unchanged. -/
theorem activation_failure_modes
    (store : List Identity) (secret now0 rng : Nat) (user : UserData) :
    (∀ now c, now0 + 300 ≤ now →
      activateUser store secret now
        ⟨c, (createActivationToken secret now0 rng user).1⟩ =
        .error (.jwtError .TokenExpired)) ∧
    (∀ now c, now < now0 + 300 → c.data.length = 4 →
      c.data.all Char.isDigit = true → c ≠ activationCodeOf rng →
      activateUser store secret now
        ⟨c, (createActivationToken secret now0 rng user).1⟩ =
        .error (.badRequest "Invalid activation code")) ∧
    (∀ now c sig,
      sig ≠ ((createActivationToken secret now0 rng user).1).signature →
      activateUser store secret now
        ⟨c, { (createActivationToken secret now0 rng user).1 with
          signature := sig }⟩ =
        .error (.jwtError .TokenInvalid)) ∧
    (∀ sec now dto e, activateUser store sec now dto = .error e →
      activateUserStore store sec now dto = store) := by
  refine ⟨fun now c h => ?_, fun now c h _ _ hne => ?_,
    fun now c sig h => ?_, fun sec now dto e h => ?_⟩
  · simp [activateUser, createActivationToken, jwtSign, jwtVerify, h]
  · simp [activateUser, createActivationToken, jwtSign, jwtVerify,
      Nat.not_le.mpr h, hne.symm]
  · simp only [createActivationToken, jwtSign] at h
    simp [activateUser, createActivationToken, jwtSign, jwtVerify, h]
  · simp [activateUserStore, h]

/-- Witness for C2: redeeming the token issued at time 0 at time 300
(the TTL instant) throws TokenExpired. -/
theorem activation_failure_modes_witness :
    activateUser [] 1 300 ⟨"1000", (createActivationToken 1 0 0 c2User).1⟩ =
      .error (.jwtError .TokenExpired) := by
  exact (activation_failure_modes [] 1 0 0 c2User).1 300 "1000" (by decide)

/-- Claim C5 (counterexample): the store already holds an identity
with phone number 5551234, yet activating a pending user with a fresh
email and that same phone number persists a second identity carrying
it — activateUser checks only the email before creating. -/
theorem activate_creates_duplicate_phone :
    findByPhone annStore (some 5551234) = some annIdentity ∧
    activateUser annStore 9 10 c5Dto =
      .ok (.created c5Created, annStore ++ [c5Created]) ∧
    c5Created.phone_number = annIdentity.phone_number := by
  exact ⟨rfl, rfl, rfl⟩

/-- Claim C5 (amended): register checks both email and phone
uniqueness before proceeding, and activateUser — the only operation
that persists an identity — checks email uniqueness (but not phone)
before creating; hence email uniqueness is preserved at creation time,
while phone uniqueness is guarded only at registration. -/
theorem creation_uniqueness_checks
    (store : List Identity) (secret now : Nat) :
    (∀ salt rng dto res mails,
      register store secret salt now rng dto = (.ok res, mails) →
      findByEmail store dto.email = none ∧
      findByPhone store dto.phone_number = none) ∧
    (∀ dto u s2,
      activateUser store secret now dto = .ok (.created u, s2) →
      findByEmail store u.email = none ∧ s2 = store ++ [u]) := by
  constructor
  · intro salt rng dto res mails h
    unfold register at h
    split at h
    · simp at h
    next h1 =>
      split at h
      · simp at h
      next h2 => exact ⟨h1, h2⟩
  · intro dto u s2 h
    unfold activateUser at h
    split at h
    · simp at h
    next newUser hv =>
      split at h
      · simp at h
      next hcode =>
        split at h
        · simp at h
        next hfind =>
          injection h with h1
          injection h1 with h2 h3
          injection h2 with h4
          subst h4
          exact ⟨hfind, h3.symm⟩

/-- Witness for the amended C5: the activation of `c5Dto` against
`annStore` satisfies the email-uniqueness conclusion. -/
theorem creation_uniqueness_checks_witness :
    findByEmail annStore c5Created.email = none := by
  exact ((creation_uniqueness_checks annStore 9 10).2 c5Dto c5Created
    (annStore ++ [c5Created]) rfl).1

/-- Claim C1: with no conflicting identity on email or phone, register
succeeds and returns the activation token; activateUser called before
the 5-minute TTL elapses with exactly the generated code persists an
identity with the same name, email, hashed password and phone number;
called with any other code it throws and never returns a created
identity. -/
theorem register_then_activate_roundtrip
    (store : List Identity) (secret salt now rng : Nat) (dto : RegisterDto)
    (hEmail : findByEmail store dto.email = none)
    (hPhone : findByPhone store dto.phone_number = none) :
    register store secret salt now rng dto =
      (.ok ⟨(createActivationToken secret now rng (pendingOf dto salt)).1,
          "Otp sended to email !"⟩,
        [⟨"Activate your account !", "./activation-mail",
          activationCodeOf rng, dto.email, dto.name⟩]) ∧
    (∀ now2, now2 < now + 300 →
      activateUser store secret now2
        ⟨activationCodeOf rng,
          (createActivationToken secret now rng (pendingOf dto salt)).1⟩ =
        .ok (.created (createdIdentity store dto salt),
          store ++ [createdIdentity store dto salt]) ∧
      (createdIdentity store dto salt).name = dto.name ∧
      (createdIdentity store dto salt).email = dto.email ∧
      (createdIdentity store dto salt).password =
        bcryptHash dto.password 10 salt ∧
      (createdIdentity store dto salt).phone_number = dto.phone_number) ∧
    (∀ now2 c, c ≠ activationCodeOf rng →
      ∃ e, activateUser store secret now2
        ⟨c, (createActivationToken secret now rng (pendingOf dto salt)).1⟩ =
        .error e) := by
  refine ⟨?_, fun now2 h2 => ⟨?_, rfl, rfl, rfl, rfl⟩, fun now2 c hc => ?_⟩
  · simp [register, hEmail, hPhone, createActivationToken]
  · simp [activateUser, createActivationToken, jwtSign, jwtVerify,
      Nat.not_le.mpr h2, pendingOf, hEmail, createdIdentity]
  · by_cases hexp : now + 300 ≤ now2
    · exact ⟨.jwtError .TokenExpired, by
        simp [activateUser, createActivationToken, jwtSign, jwtVerify, hexp]⟩
    · exact ⟨.badRequest "Invalid activation code", by
        simp [activateUser, createActivationToken, jwtSign, jwtVerify,
          hexp, hc.symm]⟩

/-- Witness for C1: Ann registers against the empty store and
activates at time 10 with the generated code. -/
theorem register_then_activate_roundtrip_witness :
    register [] 7 0 0 0 annDto =
      (.ok ⟨(createActivationToken 7 0 0 (pendingOf annDto 0)).1,
          "Otp sended to email !"⟩,
        [⟨"Activate your account !", "./activation-mail",
          activationCodeOf 0, "ann@x.com", "Ann"⟩]) ∧
    activateUser [] 7 10
      ⟨activationCodeOf 0, (createActivationToken 7 0 0 (pendingOf annDto 0)).1⟩ =
      .ok (.created (createdIdentity [] annDto 0),
        [] ++ [createdIdentity [] annDto 0]) := by
  have h := register_then_activate_roundtrip [] 7 0 0 0 annDto rfl rfl
  exact ⟨h.1, (h.2.1 10 (by decide)).1⟩
